import Mathlib

/-!
Shallow embedding of the order-placement and order-lifecycle core of the
disfrutar-backend storefront (src/app.js and the enhanced variant in
src/unnamed/part_000, lines 398-1096).  Tables become lists of records,
the Express handlers become state-transition functions on a `Db` record,
and the PostgreSQL transaction in `POST /orders` becomes an explicit
commit function together with a rollback branch that restores the
pre-transaction state.
-/

namespace Shop

/-- A row of the `cart` table: `(customer_id, product_id, quantity)`.
The source never validates `quantity`, so it is an unrestricted `Int`. -/
structure CartLine where
  customerId : Nat
  productId : Nat
  quantity : Int
deriving Repr, DecidableEq

/-- A row of the `product` table (the columns the core reads/writes). -/
structure Product where
  id : Nat
  name : String
  descr : String
  price : Int
  categoryId : Nat
  stockQuantity : Int
deriving Repr, DecidableEq

/-- A row of the `customer_order` table. -/
structure Order where
  id : Nat
  customerId : Nat
  status : String
  shippingAddress : String
  paymentMethod : Option String
  createdAt : Nat
deriving Repr, DecidableEq

/-- A row of the `order_item` table.  The INSERT in `POST /orders`
(src/app.js lines 673-678) writes only `(order_id, product_id, quantity)`:
there is no unit-price column. -/
structure OrderItem where
  orderId : Nat
  productId : Nat
  quantity : Int
deriving Repr, DecidableEq

/-- A row of the `coupon` table. -/
structure Coupon where
  code : String
  discountPercent : Int
  validFrom : Nat
  validTo : Nat
deriving Repr, DecidableEq

/-- The persistent store.  `nextOrderId` models the serial primary key of
`customer_order`; `now` models the database clock (`created_at` default,
`CURRENT_DATE`). -/
structure Db where
  products : List Product
  carts : List CartLine
  orders : List Order
  orderItems : List OrderItem
  coupons : List Coupon
  nextOrderId : Nat
  now : Nat
deriving Repr, DecidableEq

/-- `SELECT ... FROM cart WHERE customer_id = $1`. -/
def cartOf (customerId : Nat) (db : Db) : List CartLine :=
  db.carts.filter (fun l => l.customerId == customerId)

/-- `SELECT ... FROM order_item WHERE order_id = $1`. -/
def itemsOf (orderId : Nat) (db : Db) : List OrderItem :=
  db.orderItems.filter (fun i => i.orderId == orderId)

/-- `POST /cart` (src/app.js lines 583-594): unconditional upsert
`INSERT ... ON CONFLICT (customer_id, product_id) DO UPDATE SET quantity =
cart.quantity + $3`.  No validation of `quantity` is performed. -/
def addToCart (customerId productId : Nat) (quantity : Int) (db : Db) : Db :=
  if db.carts.any (fun l => l.customerId == customerId && l.productId == productId) then
    { db with carts := db.carts.map (fun l =>
        if l.customerId == customerId && l.productId == productId then
          { l with quantity := l.quantity + quantity }
        else l) }
  else
    { db with carts := db.carts ++ [{ customerId := customerId, productId := productId,
                                      quantity := quantity }] }

/-- Outcome of `PUT /cart/:productId`. -/
inductive UpdateCartResult where
  | ok : Db → UpdateCartResult
  | notFound : Db → UpdateCartResult
deriving Repr, DecidableEq

/-- `PUT /cart/:productId` (src/unnamed/part_000 lines 1033-1048):
`UPDATE cart SET quantity = $1 WHERE customer_id = $2 AND product_id = $3
RETURNING *`; 404 when no row matched.  No validation of `quantity`. -/
def updateCartQuantity (customerId productId : Nat) (quantity : Int) (db : Db) :
    UpdateCartResult :=
  if db.carts.any (fun l => l.customerId == customerId && l.productId == productId) then
    UpdateCartResult.ok { db with carts := db.carts.map (fun l =>
      if l.customerId == customerId && l.productId == productId then
        { l with quantity := quantity }
      else l) }
  else
    UpdateCartResult.notFound db

/-- `DELETE /cart/:productId`. -/
def removeFromCart (customerId productId : Nat) (db : Db) : Db :=
  { db with carts := db.carts.filter (fun l =>
      !(l.customerId == customerId && l.productId == productId)) }

/-- `DELETE /cart`. -/
def clearCart (customerId : Nat) (db : Db) : Db :=
  { db with carts := db.carts.filter (fun l => !(l.customerId == customerId)) }

/-- Outcome of `POST /orders`: HTTP 201 with the new order id, or HTTP 400
after `ROLLBACK`. -/
inductive PlaceResult where
  | ok : Nat → Db → PlaceResult
  | rolledBack : Db → PlaceResult
deriving Repr, DecidableEq

/-- The state reached by the transaction body of `POST /orders`
(src/app.js lines 652-691) when every query succeeds, paired with the new
order id: insert the `customer_order` header with status `Pending`, read
the customer's cart, insert one `order_item` per cart line (product id and
quantity only — no price), delete the customer's cart rows. -/
def placeOrderCommit (customerId : Nat) (shippingAddress : String) (db : Db) : Nat × Db :=
  let orderId := db.nextOrderId
  let dbHeader := { db with
    orders := db.orders ++ [{ id := orderId, customerId := customerId,
                              status := "Pending", shippingAddress := shippingAddress,
                              paymentMethod := none, createdAt := db.now }],
    nextOrderId := orderId + 1 }
  let cartItems := cartOf customerId dbHeader
  let dbItems := { dbHeader with
    orderItems := dbHeader.orderItems ++ cartItems.map (fun (l : CartLine) =>
      ({ orderId := orderId, productId := l.productId,
         quantity := l.quantity } : OrderItem)) }
  let dbCleared := { dbItems with
    carts := dbItems.carts.filter (fun l => !(l.customerId == customerId)) }
  (orderId, dbCleared)

/-- Number of SQL statements issued inside the `POST /orders` transaction:
the header INSERT, the cart SELECT, one INSERT per cart line, the cart
DELETE, and the COMMIT itself.  Any of them may fail. -/
def placeOrderQueryCount (customerId : Nat) (db : Db) : Nat :=
  4 + (cartOf customerId db).length

/-- `POST /orders`.  `failAt = some k` with `k` below the statement count
means the k-th statement of the transaction raises a storage error; the
handler then issues `ROLLBACK`, which discards every uncommitted write and
leaves the store exactly as it was at `BEGIN`.  Otherwise the transaction
commits.  The handler performs no empty-cart check. -/
def placeOrder (customerId : Nat) (shippingAddress : String) (failAt : Option Nat)
    (db : Db) : PlaceResult :=
  match failAt with
  | some k =>
    if k < placeOrderQueryCount customerId db then
      PlaceResult.rolledBack db
    else
      let r := placeOrderCommit customerId shippingAddress db
      PlaceResult.ok r.1 r.2
  | none =>
    let r := placeOrderCommit customerId shippingAddress db
    PlaceResult.ok r.1 r.2

/-- The store state carried by a `PlaceResult`. -/
def placeDb : PlaceResult → Db
  | PlaceResult.ok _ db => db
  | PlaceResult.rolledBack db => db

/-- Outcome of `POST /orders/:orderId/pay`. -/
inductive PayResult where
  | ok : Db → PayResult
  | notFound : Db → PayResult
deriving Repr, DecidableEq

/-- `POST /orders/:orderId/pay` (src/app.js lines 791-817): look the order
up by id and owner; 404 when absent; otherwise unconditionally
`UPDATE customer_order SET status = 'Paid', payment_method = $2 WHERE id = $3`.
There is no check that the current status is `Pending`. -/
def pay (customerId orderId : Nat) (paymentMethod : String) (db : Db) : PayResult :=
  match db.orders.find? (fun o => o.id == orderId && o.customerId == customerId) with
  | none => PayResult.notFound db
  | some _ =>
    PayResult.ok { db with orders := db.orders.map (fun o =>
      if o.id == orderId then
        { o with status := "Paid", paymentMethod := some paymentMethod }
      else o) }

/-- The store state carried by a `PayResult`. -/
def payDb : PayResult → Db
  | PayResult.ok db => db
  | PayResult.notFound db => db

/-- Whether a `PayResult` is the 200 outcome. -/
def payIsOk : PayResult → Bool
  | PayResult.ok _ => true
  | PayResult.notFound _ => false

/-- `PATCH /orders/:orderId/status` (src/unnamed/part_000 lines 742-757):
unconditional `UPDATE customer_order SET status = $1 WHERE id = $2`.
(The 404 branch fires when no row matched, in which case the map below is
the identity, so the state function covers both branches.) -/
def adminSetStatus (orderId : Nat) (newStatus : String) (db : Db) : Db :=
  { db with orders := db.orders.map (fun o =>
      if o.id == orderId then { o with status := newStatus } else o) }

/-- `PUT /products/:id` (src/unnamed/part_000 lines 624-639): overwrite
every mutable product column, 404 when the id is absent (identity map). -/
def updateProduct (id : Nat) (name ds : String) (price : Int) (categoryId : Nat)
    (stockQuantity : Int) (db : Db) : Db :=
  { db with products := db.products.map (fun p =>
      if p.id == id then
        { p with name := name, descr := ds, price := price,
                 categoryId := categoryId, stockQuantity := stockQuantity }
      else p) }

/-- One joined row of the `GET /orders/:orderId` item query
(`SELECT oi.*, p.name, p.price FROM order_item oi JOIN product p ...`):
the price column is the product's *current* catalog price. -/
structure OrderLineView where
  orderId : Nat
  productId : Nat
  quantity : Int
  name : String
  price : Int
deriving Repr, DecidableEq

/-- Outcome of `GET /orders/:orderId`. -/
inductive GetOrderResult where
  | ok : Order → List OrderLineView → GetOrderResult
  | notFound : GetOrderResult
deriving Repr, DecidableEq

/-- `GET /orders/:orderId` (src/app.js lines 735-758): find the order by
id and owner, then report its items inner-joined to `product`, taking
`name` and `price` from the product row as it is *now*. -/
def getOrder (customerId orderId : Nat) (db : Db) : GetOrderResult :=
  match db.orders.find? (fun o => o.id == orderId && o.customerId == customerId) with
  | none => GetOrderResult.notFound
  | some o =>
    GetOrderResult.ok o ((itemsOf orderId db).filterMap (fun i =>
      (db.products.find? (fun p => p.id == i.productId)).map (fun p =>
        { orderId := i.orderId, productId := i.productId, quantity := i.quantity,
          name := p.name, price := p.price })))

/-- The price column of each reported line of `GET /orders/:orderId`
(empty when the order is absent). -/
def getOrderPrices (customerId orderId : Nat) (db : Db) : List Int :=
  match getOrder customerId orderId db with
  | GetOrderResult.ok _ views => views.map (fun v => v.price)
  | GetOrderResult.notFound => []

/-- Outcome of `POST /apply-coupon`. -/
inductive CouponResult where
  | applied : Int → CouponResult
  | invalid : CouponResult
deriving Repr, DecidableEq

/-- `POST /apply-coupon` (src/unnamed/part_000 lines 960-974):
`SELECT * FROM coupon WHERE code = $1 AND valid_from <= CURRENT_DATE AND
valid_to >= CURRENT_DATE`; 404 `Invalid or expired coupon` when no row,
otherwise 200 with the row's `discount_percent`. -/
def applyCoupon (code : String) (asOf : Nat) (coupons : List Coupon) : CouponResult :=
  match coupons.find? (fun c =>
      c.code == code && decide (c.validFrom ≤ asOf) && decide (asOf ≤ c.validTo)) with
  | some c => CouponResult.applied c.discountPercent
  | none => CouponResult.invalid

/-- One row of the `GET /admin/low-stock-alerts` result
(`SELECT id, name, stock_quantity FROM product`). -/
structure LowStockRow where
  id : Nat
  name : String
  stockQuantity : Int
deriving Repr, DecidableEq

/-- Comparison used by `ORDER BY stock_quantity ASC`. -/
def stockLe (a b : LowStockRow) : Prop :=
  a.stockQuantity ≤ b.stockQuantity

instance : DecidableRel stockLe := fun a b => Int.decLe a.stockQuantity b.stockQuantity

instance : IsTotal LowStockRow stockLe := ⟨fun a b => Int.le_total a.stockQuantity b.stockQuantity⟩

instance : IsTrans LowStockRow stockLe := ⟨fun _ _ _ h h' => le_trans h h'⟩

/-- `GET /admin/low-stock-alerts` (src/unnamed/part_000 lines 1079-1090):
`SELECT id, name, stock_quantity FROM product WHERE stock_quantity <= $1
ORDER BY stock_quantity ASC`. -/
def lowStockAlerts (threshold : Int) (products : List Product) : List LowStockRow :=
  List.insertionSort stockLe
    ((products.filter (fun p => decide (p.stockQuantity ≤ threshold))).map
      (fun p => { id := p.id, name := p.name, stockQuantity := p.stockQuantity }))

/-- The joined rows feeding `GET /admin/sales-report`
(src/unnamed/part_000 lines 1060-1077): `order_item` inner-joined to
`product` on product id and to `customer_order` on order id, keeping the
rows whose order's `created_at` lies `BETWEEN $1 AND $2`.  No condition
mentions the order's status. -/
def reportLines (startDate endDate : Nat) (db : Db) : List (OrderItem × Product) :=
  db.orderItems.filterMap (fun oi =>
    match db.products.find? (fun p => p.id == oi.productId),
          db.orders.find? (fun o => o.id == oi.orderId) with
    | some p, some o =>
      if startDate ≤ o.createdAt ∧ o.createdAt ≤ endDate then some (oi, p) else none
    | some _, none => none
    | none, _ => none)

/-- One row of the sales report. -/
structure SalesRow where
  productId : Nat
  name : String
  totalSold : Int
  revenue : Int
deriving Repr, DecidableEq

/-- Comparison used by `ORDER BY revenue DESC`. -/
def revenueGe (a b : SalesRow) : Prop :=
  b.revenue ≤ a.revenue

instance : DecidableRel revenueGe := fun a b => Int.decLe b.revenue a.revenue

/-- `GROUP BY p.id, p.name` with `SUM(oi.quantity)` and
`SUM(oi.quantity * p.price)`, then `ORDER BY revenue DESC`, over a given
list of joined rows. -/
def salesRowsOf (lines : List (OrderItem × Product)) : List SalesRow :=
  List.insertionSort revenueGe
    (((lines.map (fun x => (x.2.id, x.2.name))).dedup).map (fun k =>
      { productId := k.1, name := k.2,
        totalSold := ((lines.filter (fun x => x.2.id == k.1)).map
          (fun x => x.1.quantity)).sum,
        revenue := ((lines.filter (fun x => x.2.id == k.1)).map
          (fun x => x.1.quantity * x.2.price)).sum }))

/-- `GET /admin/sales-report`. -/
def salesReport (startDate endDate : Nat) (db : Db) : List SalesRow :=
  salesRowsOf (reportLines startDate endDate db)

/-- Every state-mutating operation of the modelled surface, used to state
that already-committed order lines are never touched afterwards. -/
inductive Op where
  | cartAdd (customerId productId : Nat) (quantity : Int)
  | cartSetQty (customerId productId : Nat) (quantity : Int)
  | cartRemove (customerId productId : Nat)
  | cartClear (customerId : Nat)
  | orderPlace (customerId : Nat) (shippingAddress : String) (failAt : Option Nat)
  | orderPay (customerId orderId : Nat) (paymentMethod : String)
  | orderSetStatus (orderId : Nat) (newStatus : String)
  | productUpdate (id : Nat) (name ds : String) (price : Int) (categoryId : Nat)
      (stockQuantity : Int)
deriving Repr, DecidableEq

/-- The state transition of each operation. -/
def applyOp : Op → Db → Db
  | Op.cartAdd c p q, db => addToCart c p q db
  | Op.cartSetQty c p q, db =>
    match updateCartQuantity c p q db with
    | UpdateCartResult.ok db' => db'
    | UpdateCartResult.notFound db' => db'
  | Op.cartRemove c p, db => removeFromCart c p db
  | Op.cartClear c, db => clearCart c db
  | Op.orderPlace c a f, db => placeDb (placeOrder c a f db)
  | Op.orderPay c oid pm, db => payDb (pay c oid pm db)
  | Op.orderSetStatus oid st, db => adminSetStatus oid st db
  | Op.productUpdate i n ds pr cat st, db => updateProduct i n ds pr cat st db

/-- Run a sequence of operations. -/
def applyOps (ops : List Op) (db : Db) : Db :=
  ops.foldl (fun d o => applyOp o d) db

/-! ### Shared helper lemmas and concrete stores -/

/-- Filtering by `p` after keeping only the elements refuting `p` yields
nothing. -/
theorem filter_not_filter_self {α : Type} (p : α → Bool) (l : List α) :
    (l.filter (fun x => !(p x))).filter p = [] := by
  induction l with
  | nil => rfl
  | cons a t ih => cases hpa : p a <;> simp [List.filter_cons, hpa, ih]

/-- `List.filterMap` only depends on the values of the function on the
list. -/
theorem filterMap_ext {α β : Type} (f g : α → Option β) (l : List α)
    (h : ∀ x ∈ l, f x = g x) : l.filterMap f = l.filterMap g := by
  induction l with
  | nil => rfl
  | cons a t ih =>
    rw [List.filterMap_cons, List.filterMap_cons, h a (List.mem_cons_self a t),
      ih (fun x hx => h x (List.mem_cons_of_mem a hx))]

/-- Closed form of the committed `POST /orders` transaction. -/
theorem placeOrderCommit_eq (customerId : Nat) (shippingAddress : String) (db : Db) :
    placeOrderCommit customerId shippingAddress db =
      (db.nextOrderId,
       { products := db.products,
         carts := db.carts.filter (fun l => !(l.customerId == customerId)),
         orders := db.orders ++ [{ id := db.nextOrderId, customerId := customerId,
                                   status := "Pending", shippingAddress := shippingAddress,
                                   paymentMethod := none, createdAt := db.now }],
         orderItems := db.orderItems ++ (cartOf customerId db).map (fun l =>
           ({ orderId := db.nextOrderId, productId := l.productId,
              quantity := l.quantity } : OrderItem)),
         coupons := db.coupons,
         nextOrderId := db.nextOrderId + 1,
         now := db.now }) := rfl

/-- A concrete store with one product and one cart line for customer 1. -/
def dbW1 : Db :=
  { products := [{ id := 1, name := "widget", descr := "d", price := 10,
                   categoryId := 1, stockQuantity := 5 }],
    carts := [{ customerId := 1, productId := 1, quantity := 2 }],
    orders := [], orderItems := [], coupons := [], nextOrderId := 1, now := 100 }

/-- A concrete store with an entirely empty cart table. -/
def dbC2 : Db :=
  { products := [], carts := [], orders := [], orderItems := [], coupons := [],
    nextOrderId := 1, now := 0 }

/-! ### C1 -/

/-- C1: PlaceOrder is atomic.  If the k-th statement of the `POST /orders`
transaction fails (storage error, constraint violation), the handler rolls
the whole unit back: afterwards the order table, the order-item table and
the cart table are exactly as they were before the call — no Order header,
no OrderLines, no partial cart clear. -/
theorem placeOrder_atomic_rollback (customerId : Nat) (shippingAddress : String)
    (k : Nat) (db : Db) (h : k < placeOrderQueryCount customerId db) :
    placeOrder customerId shippingAddress (some k) db = PlaceResult.rolledBack db
    ∧ (placeDb (placeOrder customerId shippingAddress (some k) db)).orders = db.orders
    ∧ (placeDb (placeOrder customerId shippingAddress (some k) db)).orderItems
        = db.orderItems
    ∧ (placeDb (placeOrder customerId shippingAddress (some k) db)).carts = db.carts := by
  simp [placeOrder, h, placeDb]

/-- Witness for C1: a failure in the first statement of the transaction on
a concrete non-empty cart leaves the store untouched. -/
theorem placeOrder_atomic_rollback_witness :
    placeOrder 1 "addr" (some 0) dbW1 = PlaceResult.rolledBack dbW1
    ∧ (placeDb (placeOrder 1 "addr" (some 0) dbW1)).orders = dbW1.orders
    ∧ (placeDb (placeOrder 1 "addr" (some 0) dbW1)).orderItems = dbW1.orderItems
    ∧ (placeDb (placeOrder 1 "addr" (some 0) dbW1)).carts = dbW1.carts :=
  placeOrder_atomic_rollback 1 "addr" 0 dbW1 (by decide)

/-! ### C5 -/

/-- C5: after a successful PlaceOrder for customer X, the cart of X is
empty — `ListLines(X)` returns zero cart lines. -/
theorem placeOrder_success_clears_cart (customerId : Nat) (shippingAddress : String)
    (db : Db) (orderId : Nat) (db' : Db)
    (h : placeOrder customerId shippingAddress none db = PlaceResult.ok orderId db') :
    cartOf customerId db' = [] := by
  simp only [placeOrder, placeOrderCommit_eq, PlaceResult.ok.injEq] at h
  rw [← h.2]
  exact filter_not_filter_self (fun l => l.customerId == customerId) db.carts

/-- Witness for C5: placing an order on a concrete one-line cart leaves
that customer's cart empty. -/
theorem placeOrder_success_clears_cart_witness :
    cartOf 1 (placeOrderCommit 1 "addr" dbW1).2 = [] :=
  placeOrder_success_clears_cart 1 "addr" dbW1 (placeOrderCommit 1 "addr" dbW1).1
    (placeOrderCommit 1 "addr" dbW1).2 rfl

/-! ### C2 -/

/-- C2 counterexample: the handler performs no empty-cart check.  On a
store whose cart table is empty, `PlaceOrder` does not fail with
`EmptyCart`; it commits and creates an Order header (status `Pending`,
zero lines). -/
theorem placeOrder_emptyCart_counterexample :
    cartOf 7 dbC2 = []
    ∧ placeOrder 7 "addr" none dbC2
        = PlaceResult.ok 1 { dbC2 with
            orders := [{ id := 1, customerId := 7, status := "Pending",
                         shippingAddress := "addr", paymentMethod := none,
                         createdAt := 0 }],
            nextOrderId := 2 } := by
  exact ⟨rfl, rfl⟩

/-- C2 amended: PlaceOrder never rejects an empty cart.  For every
customer whose cart has no lines (and fresh order ids), PlaceOrder
succeeds, creating a `Pending` Order with zero OrderLines. -/
theorem placeOrder_empty_cart_creates_order (customerId : Nat)
    (shippingAddress : String) (db : Db)
    (hcart : cartOf customerId db = [])
    (hfresh : ∀ i ∈ db.orderItems, i.orderId < db.nextOrderId) :
    ∃ db', placeOrder customerId shippingAddress none db
        = PlaceResult.ok db.nextOrderId db'
      ∧ (∃ o ∈ db'.orders, o.id = db.nextOrderId ∧ o.customerId = customerId
          ∧ o.status = "Pending")
      ∧ itemsOf db.nextOrderId db' = [] := by
  refine ⟨(placeOrderCommit customerId shippingAddress db).2,
    by simp [placeOrder, placeOrderCommit_eq], ?_, ?_⟩
  · refine ⟨{ id := db.nextOrderId, customerId := customerId, status := "Pending",
              shippingAddress := shippingAddress, paymentMethod := none,
              createdAt := db.now }, ?_, rfl, rfl, rfl⟩
    rw [placeOrderCommit_eq]
    simp
  · rw [placeOrderCommit_eq, itemsOf]
    simp only [hcart, List.map_nil, List.append_nil]
    rw [List.filter_eq_nil_iff]
    intro i hi
    have := hfresh i hi
    simp only [beq_iff_eq]
    omega

/-- Witness for C2's amended claim at a concrete empty-cart store. -/
theorem placeOrder_empty_cart_creates_order_witness :
    ∃ db', placeOrder 7 "addr" none dbC2 = PlaceResult.ok dbC2.nextOrderId db'
      ∧ (∃ o ∈ db'.orders, o.id = dbC2.nextOrderId ∧ o.customerId = 7
          ∧ o.status = "Pending")
      ∧ itemsOf dbC2.nextOrderId db' = [] :=
  placeOrder_empty_cart_creates_order 7 "addr" dbC2 rfl (by decide)

/-! ### C4 -/

/-- A concrete order that has already been paid with "card". -/
def orderC4 : Order :=
  { id := 1, customerId := 1, status := "Paid", shippingAddress := "a",
    paymentMethod := some "card", createdAt := 0 }

/-- A concrete store holding only the already-paid order `orderC4`. -/
def dbC4 : Db :=
  { products := [], carts := [], orders := [orderC4], orderItems := [], coupons := [],
    nextOrderId := 2, now := 5 }

/-- C4 counterexample: the pay handler has no status guard.  Calling Pay
on an order that is already `Paid` (with paymentMethod "card") is not
rejected with Conflict: it succeeds and overwrites the recorded
paymentMethod with the new one. -/
theorem pay_double_counterexample :
    payIsOk (pay 1 1 "paypal" dbC4) = true
    ∧ (payDb (pay 1 1 "paypal" dbC4)).orders.map (fun o => o.paymentMethod)
        = [some "paypal"] := by
  exact ⟨rfl, rfl⟩

/-- C4 amended: Pay only checks existence and ownership.  Whenever the
order exists and belongs to the caller — whatever its current status —
Pay succeeds, re-sets the status to `Paid` and overwrites paymentMethod
with the newly supplied value. -/
theorem pay_no_status_guard (customerId orderId : Nat) (pm : String) (db : Db)
    (o : Order)
    (h : db.orders.find? (fun x => x.id == orderId && x.customerId == customerId)
        = some o) :
    ∃ db', pay customerId orderId pm db = PayResult.ok db'
      ∧ ∀ x ∈ db'.orders, x.id = orderId →
          x.status = "Paid" ∧ x.paymentMethod = some pm := by
  refine ⟨{ db with orders := db.orders.map (fun y =>
      if y.id == orderId then { y with status := "Paid", paymentMethod := some pm }
      else y) }, by simp [pay, h], ?_⟩
  intro x hx hxid
  obtain ⟨y, _, hxy⟩ := List.mem_map.1 hx
  by_cases hy : y.id = orderId
  · simp only [hy, beq_self_eq_true, if_true] at hxy
    rw [← hxy]
    exact ⟨rfl, rfl⟩
  · exfalso
    simp only [beq_iff_eq, hy, if_false] at hxy
    rw [← hxy] at hxid
    exact hy hxid

/-- Witness for C4's amended claim: paying the already-paid concrete order
succeeds and records the new payment method. -/
theorem pay_no_status_guard_witness :
    ∃ db', pay 1 1 "newcard" dbC4 = PayResult.ok db'
      ∧ ∀ x ∈ db'.orders, x.id = 1 →
          x.status = "Paid" ∧ x.paymentMethod = some "newcard" :=
  pay_no_status_guard 1 1 "newcard" dbC4 orderC4 rfl

/-! ### C3 -/

/-- A concrete product priced 10. -/
def productC3 : Product :=
  { id := 1, name := "widget", descr := "d", price := 10, categoryId := 1,
    stockQuantity := 5 }

/-- A concrete pending order of customer 1. -/
def orderC3 : Order :=
  { id := 1, customerId := 1, status := "Pending", shippingAddress := "a",
    paymentMethod := none, createdAt := 0 }

/-- A concrete store: one product, one order with one line over it. -/
def dbC3 : Db :=
  { products := [productC3], carts := [], orders := [orderC3],
    orderItems := [{ orderId := 1, productId := 1, quantity := 2 }], coupons := [],
    nextOrderId := 2, now := 9 }

/-- The joined row `GET /orders/1` reports for the line of `dbC3`. -/
def viewC3 : OrderLineView :=
  { orderId := 1, productId := 1, quantity := 2, name := "widget", price := 10 }

/-- C3 counterexample: order lines carry no price snapshot.  GetOrder on
the concrete store reports the line at the catalog price 10; after the
admin updates the product's catalog price to 20, the very same order's
line is reported at 20 — the reported price follows the catalog. -/
theorem getOrder_price_not_snapshot_counterexample :
    getOrderPrices 1 1 dbC3 = [10]
    ∧ getOrderPrices 1 1 (updateProduct 1 "widget" "d" 20 1 5 dbC3) = [20] := by
  exact ⟨rfl, rfl⟩

/-- C3 amended: the `order_item` row stores only product id and quantity,
and `GET /orders/:orderId` joins each line to the `product` table at read
time: every reported line carries the product's *current* catalog name
and price, so later catalog price changes do change the price reported
for existing orders. -/
theorem getOrder_reports_current_price (customerId orderId : Nat) (db : Db)
    (o : Order) (views : List OrderLineView)
    (h : getOrder customerId orderId db = GetOrderResult.ok o views) :
    ∀ v ∈ views, ∃ p ∈ db.products, p.id = v.productId ∧ v.name = p.name
      ∧ v.price = p.price := by
  intro v hv
  cases hfind : db.orders.find?
      (fun x => x.id == orderId && x.customerId == customerId) with
  | none => simp [getOrder, hfind] at h
  | some o0 =>
    simp only [getOrder, hfind, GetOrderResult.ok.injEq] at h
    rw [← h.2] at hv
    obtain ⟨i, _, hfi⟩ := List.mem_filterMap.1 hv
    cases hp : db.products.find? (fun p => p.id == i.productId) with
    | none => rw [hp] at hfi; exact absurd hfi (by simp)
    | some p =>
      rw [hp] at hfi
      simp only [Option.map_some', Option.some.injEq] at hfi
      have hpid : p.id = i.productId := by
        have := List.find?_some hp
        simpa [beq_iff_eq] using this
      refine ⟨p, List.mem_of_find?_eq_some hp, ?_, ?_, ?_⟩
      · rw [← hfi]; exact hpid
      · rw [← hfi]
      · rw [← hfi]

/-- Witness for C3's amended claim: the reported line of the concrete
store carries the current catalog name and price of its product. -/
theorem getOrder_reports_current_price_witness :
    ∃ p ∈ dbC3.products, p.id = viewC3.productId ∧ viewC3.name = p.name
      ∧ viewC3.price = p.price :=
  getOrder_reports_current_price 1 1 dbC3 orderC3 [viewC3] rfl viewC3
    (List.mem_singleton.2 rfl)

/-! ### C7 -/

/-- C7: coupon validation succeeds — returning the discount of a matching
coupon — exactly when a coupon with the given code exists whose validity
window contains `asOf` with both endpoints inclusive
(`valid_from <= asOf` and `asOf <= valid_to`); otherwise it fails with
the `CouponInvalid` outcome. -/
theorem applyCoupon_window_iff (code : String) (asOf : Nat) (coupons : List Coupon) :
    ((∃ d, applyCoupon code asOf coupons = CouponResult.applied d)
       ↔ ∃ c ∈ coupons, c.code = code ∧ c.validFrom ≤ asOf ∧ asOf ≤ c.validTo)
    ∧ (applyCoupon code asOf coupons = CouponResult.invalid
       ↔ ¬ ∃ c ∈ coupons, c.code = code ∧ c.validFrom ≤ asOf ∧ asOf ≤ c.validTo)
    ∧ ∀ d, applyCoupon code asOf coupons = CouponResult.applied d →
        ∃ c ∈ coupons, c.code = code ∧ c.validFrom ≤ asOf ∧ asOf ≤ c.validTo
          ∧ c.discountPercent = d := by
  cases hfind : coupons.find? (fun c =>
      c.code == code && decide (c.validFrom ≤ asOf) && decide (asOf ≤ c.validTo)) with
  | some c =>
    have hmem := List.mem_of_find?_eq_some hfind
    have hc := List.find?_some hfind
    simp only [Bool.and_eq_true, beq_iff_eq, decide_eq_true_eq] at hc
    have hex : ∃ x ∈ coupons, x.code = code ∧ x.validFrom ≤ asOf ∧ asOf ≤ x.validTo :=
      ⟨c, hmem, hc.1.1, hc.1.2, hc.2⟩
    refine ⟨⟨fun _ => hex, fun _ => ⟨c.discountPercent, by simp [applyCoupon, hfind]⟩⟩,
      ⟨fun hinv => ?_, fun hne => absurd hex hne⟩, fun d hd => ?_⟩
    · simp [applyCoupon, hfind] at hinv
    · simp only [applyCoupon, hfind, CouponResult.applied.injEq] at hd
      exact ⟨c, hmem, hc.1.1, hc.1.2, hc.2, hd⟩
  | none =>
    have hnone := List.find?_eq_none.1 hfind
    have hnex : ¬ ∃ x ∈ coupons, x.code = code ∧ x.validFrom ≤ asOf ∧ asOf ≤ x.validTo := by
      rintro ⟨x, hx, h1, h2, h3⟩
      exact hnone x hx (by simp [h1, h2, h3])
    refine ⟨⟨fun ⟨d, hd⟩ => ?_, fun hex => absurd hex hnex⟩,
      ⟨fun _ => hnex, fun _ => by simp [applyCoupon, hfind]⟩, fun d hd => ?_⟩
    · simp [applyCoupon, hfind] at hd
    · simp [applyCoupon, hfind] at hd

/-- The single concrete coupon used to witness C7: percent 10, window
`[100, 131]`. -/
def couponsW : List Coupon :=
  [{ code := "SAVE10", discountPercent := 10, validFrom := 100, validTo := 131 }]

/-- Witness for C7: at the inclusive right endpoint 131 validation
succeeds, one day past it (132) it fails. -/
theorem applyCoupon_window_iff_witness :
    (∃ d, applyCoupon "SAVE10" 131 couponsW = CouponResult.applied d)
    ∧ applyCoupon "SAVE10" 132 couponsW = CouponResult.invalid :=
  ⟨(applyCoupon_window_iff "SAVE10" 131 couponsW).1.mpr
      ⟨{ code := "SAVE10", discountPercent := 10, validFrom := 100, validTo := 131 },
        by decide, rfl, by decide, by decide⟩,
   (applyCoupon_window_iff "SAVE10" 132 couponsW).2.1.mpr (by decide)⟩

/-! ### C8 -/

/-- A concrete store with an empty cart table (for the insert case). -/
def dbC8 : Db :=
  { products := [], carts := [], orders := [], orderItems := [], coupons := [],
    nextOrderId := 1, now := 0 }

/-- A concrete store whose cart holds (customer 1, product 2, quantity 5). -/
def dbC8b : Db :=
  { products := [], carts := [{ customerId := 1, productId := 2, quantity := 5 }],
    orders := [], orderItems := [], coupons := [], nextOrderId := 1, now := 0 }

/-- C8 counterexample: no quantity validation exists.  `AddOrMergeLine`
with quantity −3 is not rejected with a ValidationError: it inserts a cart
line with quantity −3; `SetLineQuantity` with quantity 0 overwrites the
existing line to 0. -/
theorem cart_accepts_nonpositive_quantity_counterexample :
    (addToCart 1 2 (-3) dbC8).carts
      = [{ customerId := 1, productId := 2, quantity := -3 }]
    ∧ updateCartQuantity 1 2 0 dbC8b
      = UpdateCartResult.ok { dbC8b with
          carts := [{ customerId := 1, productId := 2, quantity := 0 }] } := by
  exact ⟨rfl, rfl⟩

/-- C8 amended: neither cart mutation validates quantity.  For every
quantity q — including q ≤ 0 — `AddOrMergeLine` performs its upsert (here:
the insert branch when no line exists) and `SetLineQuantity` overwrites
the existing line's quantity with q; the write always proceeds. -/
theorem cart_no_quantity_validation (customerId productId : Nat) (q : Int) (db : Db) :
    (db.carts.any (fun l => l.customerId == customerId && l.productId == productId)
        = false →
      (addToCart customerId productId q db).carts
        = db.carts ++ [{ customerId := customerId, productId := productId,
                         quantity := q }])
    ∧ (db.carts.any (fun l => l.customerId == customerId && l.productId == productId)
        = true →
      ∃ db', updateCartQuantity customerId productId q db = UpdateCartResult.ok db'
        ∧ ∀ l ∈ db'.carts, l.customerId = customerId → l.productId = productId →
            l.quantity = q) := by
  constructor
  · intro hnone
    simp [addToCart, hnone]
  · intro hsome
    refine ⟨{ db with carts := db.carts.map (fun l =>
        if l.customerId == customerId && l.productId == productId then
          { l with quantity := q }
        else l) }, by simp [updateCartQuantity, hsome], ?_⟩
    intro l hl hc hp
    obtain ⟨y, _, hly⟩ := List.mem_map.1 hl
    by_cases hy : y.customerId = customerId ∧ y.productId = productId
    · simp only [hy.1, hy.2, beq_self_eq_true, Bool.and_self, if_true] at hly
      rw [← hly]
    · exfalso
      have hcond : (y.customerId == customerId && y.productId == productId) = false := by
        rcases not_and_or.1 hy with h | h <;> simp [h]
      rw [hcond, if_neg (by simp)] at hly
      exact hy (by rw [hly]; exact ⟨hc, hp⟩)

/-- Witness for C8's amended claim at the concrete stores: inserting
quantity −3 into an empty cart and overwriting an existing line to 0. -/
theorem cart_no_quantity_validation_witness :
    (addToCart 1 2 (-3) dbC8).carts
      = dbC8.carts ++ [{ customerId := 1, productId := 2, quantity := -3 }]
    ∧ ∃ db', updateCartQuantity 1 2 0 dbC8b = UpdateCartResult.ok db'
        ∧ ∀ l ∈ db'.carts, l.customerId = 1 → l.productId = 2 → l.quantity = 0 :=
  ⟨(cart_no_quantity_validation 1 2 (-3) dbC8).1 (by decide),
   (cart_no_quantity_validation 1 2 0 dbC8b).2 (by decide)⟩

/-! ### C9 -/

/-- C9: `LowStockAlerts(t)` returns exactly the products whose
`stockQuantity` is at most t (inclusive) — projected to id, name and
stock — and the returned list is sorted ascending by `stockQuantity`;
no product above the threshold appears. -/
theorem lowStockAlerts_spec (t : Int) (ps : List Product) :
    (∀ r ∈ lowStockAlerts t ps, r.stockQuantity ≤ t)
    ∧ (∀ r, r ∈ lowStockAlerts t ps ↔ ∃ p ∈ ps, p.stockQuantity ≤ t
        ∧ r = { id := p.id, name := p.name, stockQuantity := p.stockQuantity })
    ∧ List.Sorted stockLe (lowStockAlerts t ps) := by
  have hmem : ∀ r, r ∈ lowStockAlerts t ps ↔ ∃ p ∈ ps, p.stockQuantity ≤ t
      ∧ r = { id := p.id, name := p.name, stockQuantity := p.stockQuantity } := by
    intro r
    rw [lowStockAlerts, List.mem_insertionSort, List.mem_map]
    constructor
    · rintro ⟨p, hp, rfl⟩
      have hp' := List.mem_filter.1 hp
      exact ⟨p, hp'.1, by simpa using hp'.2, rfl⟩
    · rintro ⟨p, hp, hle, rfl⟩
      exact ⟨p, List.mem_filter.2 ⟨hp, by simpa using hle⟩, rfl⟩
  refine ⟨?_, hmem, List.sorted_insertionSort stockLe _⟩
  intro r hr
  obtain ⟨p, _, hle, rfl⟩ := (hmem r).1 hr
  exact hle

/-- The concrete product table used to witness C9. -/
def productsW9 : List Product :=
  [{ id := 1, name := "a", descr := "d", price := 5, categoryId := 1, stockQuantity := 12 },
   { id := 2, name := "b", descr := "d", price := 5, categoryId := 1, stockQuantity := 3 },
   { id := 3, name := "c", descr := "d", price := 5, categoryId := 1, stockQuantity := 7 }]

/-- Witness for C9 at the concrete product table and threshold 10: the
low-stock row of product 2 is listed, and the whole result is sorted. -/
theorem lowStockAlerts_spec_witness :
    ({ id := 2, name := "b", stockQuantity := 3 } : LowStockRow)
        ∈ lowStockAlerts 10 productsW9
    ∧ List.Sorted stockLe (lowStockAlerts 10 productsW9) :=
  ⟨((lowStockAlerts_spec 10 productsW9).2.1
      { id := 2, name := "b", stockQuantity := 3 }).mpr
      ⟨{ id := 2, name := "b", descr := "d", price := 5, categoryId := 1,
         stockQuantity := 3 }, by decide, by decide, rfl⟩,
   (lowStockAlerts_spec 10 productsW9).2.2⟩

/-! ### C6 -/

/-- The `order_item` rows a checkout inserts for a cart: one per cart
line, carrying the fresh order id, the productId and the quantity. -/
def checkoutItems (customerId oid : Nat) (db : Db) : List OrderItem :=
  (cartOf customerId db).map (fun l =>
    { orderId := oid, productId := l.productId, quantity := l.quantity })

/-- Unfolding `itemsOf`. -/
theorem itemsOf_eq (x : Nat) (db : Db) :
    itemsOf x db = db.orderItems.filter (fun i => i.orderId == x) := rfl

/-- The new order id allocated by a committed checkout. -/
theorem commit_fst (customerId : Nat) (shippingAddress : String) (db : Db) :
    (placeOrderCommit customerId shippingAddress db).1 = db.nextOrderId := rfl

/-- The order-item table after a committed checkout. -/
theorem commit_orderItems (customerId : Nat) (shippingAddress : String) (db : Db) :
    (placeOrderCommit customerId shippingAddress db).2.orderItems
      = db.orderItems ++ checkoutItems customerId db.nextOrderId db := rfl

/-- The id sequence after a committed checkout. -/
theorem commit_nextOrderId (customerId : Nat) (shippingAddress : String) (db : Db) :
    (placeOrderCommit customerId shippingAddress db).2.nextOrderId
      = db.nextOrderId + 1 := rfl

/-- Every inserted checkout row carries the fresh order id. -/
theorem checkoutItems_mem_orderId (customerId oid : Nat) (db : Db) :
    ∀ i ∈ checkoutItems customerId oid db, i.orderId = oid := by
  intro i hi
  obtain ⟨l, _, rfl⟩ := List.mem_map.1 hi
  rfl

/-- Checkout rows never show up under a different order id. -/
theorem checkoutItems_filter_ne (customerId oid x : Nat) (db : Db) (h : ¬ oid = x) :
    (checkoutItems customerId oid db).filter (fun i => i.orderId == x) = [] := by
  rw [List.filter_eq_nil_iff]
  intro i hi
  have hoid := checkoutItems_mem_orderId customerId oid db i hi
  simp [hoid, h]

/-- Checkout rows all survive filtering by the fresh order id. -/
theorem checkoutItems_filter_self (customerId oid : Nat) (db : Db) :
    (checkoutItems customerId oid db).filter (fun i => i.orderId == oid)
      = checkoutItems customerId oid db := by
  rw [List.filter_eq_self]
  intro i hi
  have hoid := checkoutItems_mem_orderId customerId oid db i hi
  simp [hoid]

/-- Projecting the checkout rows back to (productId, quantity) recovers
the projected cart. -/
theorem checkoutItems_proj (customerId oid : Nat) (db : Db) :
    (checkoutItems customerId oid db).map (fun i => (i.productId, i.quantity))
      = (cartOf customerId db).map (fun l => (l.productId, l.quantity)) := by
  rw [checkoutItems, List.map_map]
  rfl

/-- No stale order item survives filtering by an id at or above the
sequence value. -/
theorem stale_filter_eq_nil (x : Nat) (db : Db)
    (hfresh : ∀ i ∈ db.orderItems, i.orderId < db.nextOrderId)
    (hge : db.nextOrderId ≤ x) :
    db.orderItems.filter (fun i => i.orderId == x) = [] := by
  rw [List.filter_eq_nil_iff]
  intro i hi
  have := hfresh i hi
  simp only [beq_iff_eq]
  omega

/-- The order lines reachable under any id after a committed checkout. -/
theorem itemsOf_commit (customerId : Nat) (shippingAddress : String) (x : Nat)
    (db : Db) :
    itemsOf x (placeOrderCommit customerId shippingAddress db).2
      = db.orderItems.filter (fun i => i.orderId == x)
        ++ (checkoutItems customerId db.nextOrderId db).filter
             (fun i => i.orderId == x) := by
  rw [itemsOf_eq, commit_orderItems, List.filter_append]

/-- A committed checkout preserves id freshness. -/
theorem commit_fresh (customerId : Nat) (shippingAddress : String) (db : Db)
    (hfresh : ∀ i ∈ db.orderItems, i.orderId < db.nextOrderId) :
    ∀ i ∈ (placeOrderCommit customerId shippingAddress db).2.orderItems,
      i.orderId < (placeOrderCommit customerId shippingAddress db).2.nextOrderId := by
  intro i hi
  rw [commit_nextOrderId]
  rw [commit_orderItems] at hi
  rcases List.mem_append.1 hi with h | h
  · exact Nat.lt_succ_of_lt (hfresh i h)
  · rw [checkoutItems_mem_orderId customerId db.nextOrderId db i h]
    omega

/-- A committed checkout never touches the lines of a previously
allocated order id. -/
theorem commit_frozen (customerId : Nat) (shippingAddress : String) (oid : Nat)
    (db : Db) (hlt : oid < db.nextOrderId)
    (hfresh : ∀ i ∈ db.orderItems, i.orderId < db.nextOrderId) :
    itemsOf oid (placeOrderCommit customerId shippingAddress db).2 = itemsOf oid db
    ∧ oid < (placeOrderCommit customerId shippingAddress db).2.nextOrderId
    ∧ ∀ i ∈ (placeOrderCommit customerId shippingAddress db).2.orderItems,
        i.orderId < (placeOrderCommit customerId shippingAddress db).2.nextOrderId := by
  refine ⟨?_, ?_, commit_fresh customerId shippingAddress db hfresh⟩
  · rw [itemsOf_commit,
      checkoutItems_filter_ne customerId db.nextOrderId oid db (by omega),
      List.append_nil, itemsOf_eq]
  · rw [commit_nextOrderId]
    omega

/-- An operation that touches neither the order-item table nor the order
id sequence leaves every order's lines frozen and preserves id
freshness. -/
theorem frozen_of_untouched {op : Op} {db : Db}
    (hit : (applyOp op db).orderItems = db.orderItems)
    (hnx : (applyOp op db).nextOrderId = db.nextOrderId)
    (oid : Nat) (hlt : oid < db.nextOrderId)
    (hfresh : ∀ i ∈ db.orderItems, i.orderId < db.nextOrderId) :
    itemsOf oid (applyOp op db) = itemsOf oid db
    ∧ oid < (applyOp op db).nextOrderId
    ∧ ∀ i ∈ (applyOp op db).orderItems, i.orderId < (applyOp op db).nextOrderId := by
  refine ⟨?_, ?_, ?_⟩
  · rw [itemsOf_eq, hit, itemsOf_eq]
  · rw [hnx]
    exact hlt
  · intro i hi
    rw [hnx]
    exact hfresh i (hit ▸ hi)

/-- No single operation of the modelled surface ever adds or removes a
line of an already-allocated order id, and every one preserves id
freshness. -/
theorem applyOp_preserves_frozen (op : Op) (oid : Nat) (db : Db)
    (hlt : oid < db.nextOrderId)
    (hfresh : ∀ i ∈ db.orderItems, i.orderId < db.nextOrderId) :
    itemsOf oid (applyOp op db) = itemsOf oid db
    ∧ oid < (applyOp op db).nextOrderId
    ∧ ∀ i ∈ (applyOp op db).orderItems, i.orderId < (applyOp op db).nextOrderId := by
  cases op with
  | cartAdd c p q =>
    exact frozen_of_untouched
      (by simp only [applyOp, addToCart]; split <;> rfl)
      (by simp only [applyOp, addToCart]; split <;> rfl) oid hlt hfresh
  | cartSetQty c p q =>
    by_cases hc : db.carts.any (fun l => l.customerId == c && l.productId == p) = true
    · exact frozen_of_untouched
        (by simp [applyOp, updateCartQuantity, hc])
        (by simp [applyOp, updateCartQuantity, hc]) oid hlt hfresh
    · exact frozen_of_untouched
        (by simp [applyOp, updateCartQuantity, hc])
        (by simp [applyOp, updateCartQuantity, hc]) oid hlt hfresh
  | cartRemove c p => exact frozen_of_untouched rfl rfl oid hlt hfresh
  | cartClear c => exact frozen_of_untouched rfl rfl oid hlt hfresh
  | orderPay c oid2 pm =>
    refine frozen_of_untouched ?_ ?_ oid hlt hfresh <;>
      cases hfind : db.orders.find? (fun o => o.id == oid2 && o.customerId == c) <;>
        simp [applyOp, pay, hfind, payDb]
  | orderSetStatus oid2 st => exact frozen_of_untouched rfl rfl oid hlt hfresh
  | productUpdate i n ds pr cat st => exact frozen_of_untouched rfl rfl oid hlt hfresh
  | orderPlace c a f =>
    cases f with
    | none => exact commit_frozen c a oid db hlt hfresh
    | some k =>
      by_cases hk : k < placeOrderQueryCount c db
      · have hdb : applyOp (Op.orderPlace c a (some k)) db = db := by
          simp [applyOp, placeOrder, hk, placeDb]
        rw [hdb]
        exact ⟨rfl, hlt, hfresh⟩
      · have hdb : applyOp (Op.orderPlace c a (some k)) db
            = (placeOrderCommit c a db).2 := by
          simp [applyOp, placeOrder, hk, placeDb]
        rw [hdb]
        exact commit_frozen c a oid db hlt hfresh

/-- Iterating `applyOp_preserves_frozen` over any operation sequence. -/
theorem applyOps_preserves_frozen (ops : List Op) (oid : Nat) (db : Db)
    (hlt : oid < db.nextOrderId)
    (hfresh : ∀ i ∈ db.orderItems, i.orderId < db.nextOrderId) :
    itemsOf oid (applyOps ops db) = itemsOf oid db := by
  induction ops generalizing db with
  | nil => rfl
  | cons op t ih =>
    obtain ⟨h1, h2, h3⟩ := applyOp_preserves_frozen op oid db hlt hfresh
    have hstep : applyOps (op :: t) db = applyOps t (applyOp op db) := rfl
    rw [hstep, ih (applyOp op db) h2 h3, h1]

/-- C6: a successful PlaceOrder produces an Order whose lines are exactly
the cart lines read inside the transaction — same productIds and same
quantities, one OrderLine per cart line, in order — and no later
operation of the modelled surface ever adds (or removes) a line of that
order. -/
theorem placeOrder_line_fidelity (customerId : Nat) (shippingAddress : String)
    (db : Db) (orderId : Nat) (db' : Db)
    (hfresh : ∀ i ∈ db.orderItems, i.orderId < db.nextOrderId)
    (h : placeOrder customerId shippingAddress none db = PlaceResult.ok orderId db') :
    (itemsOf orderId db').map (fun i => (i.productId, i.quantity))
        = (cartOf customerId db).map (fun l => (l.productId, l.quantity))
    ∧ ∀ ops : List Op, itemsOf orderId (applyOps ops db') = itemsOf orderId db' := by
  simp only [placeOrder, PlaceResult.ok.injEq] at h
  obtain ⟨hid, hdb⟩ := h
  rw [commit_fst] at hid
  subst hid
  subst hdb
  constructor
  · rw [itemsOf_commit, stale_filter_eq_nil db.nextOrderId db hfresh (le_refl _),
      List.nil_append, checkoutItems_filter_self, checkoutItems_proj]
  · intro ops
    apply applyOps_preserves_frozen
    · rw [commit_nextOrderId]
      omega
    · exact commit_fresh customerId shippingAddress db hfresh

/-- A concrete store with a two-line cart for customer 1 and a line for
customer 2. -/
def dbW6 : Db :=
  { products := [], carts := [{ customerId := 1, productId := 1, quantity := 2 },
                              { customerId := 1, productId := 2, quantity := 1 },
                              { customerId := 2, productId := 3, quantity := 4 }],
    orders := [], orderItems := [], coupons := [], nextOrderId := 1, now := 0 }

/-- The store after customer 1 checks out on `dbW6`. -/
def dbW6sub : Db := (placeOrderCommit 1 "x" dbW6).2

/-- Witness for C6: on the concrete cart, the new order's lines equal the
cart lines, and a subsequent checkout by customer 2 does not touch
them. -/
theorem placeOrder_line_fidelity_witness :
    (itemsOf 1 dbW6sub).map (fun i => (i.productId, i.quantity))
        = (cartOf 1 dbW6).map (fun l => (l.productId, l.quantity))
    ∧ itemsOf 1 (applyOps [Op.orderPlace 2 "y" none] dbW6sub) = itemsOf 1 dbW6sub :=
  ⟨(placeOrder_line_fidelity 1 "x" dbW6 1 dbW6sub (by decide) rfl).1,
   (placeOrder_line_fidelity 1 "x" dbW6 1 dbW6sub (by decide) rfl).2
     [Op.orderPlace 2 "y" none]⟩

/-! ### C10 -/

/-- Rewriting every order through a map that preserves order ids and
creation times leaves the joined report rows unchanged: the join
condition and the date filter never read any other order column — in
particular not the status. -/
theorem reportLines_orders_map (g : Order → Order)
    (hid : ∀ o, (g o).id = o.id) (hct : ∀ o, (g o).createdAt = o.createdAt)
    (s e : Nat) (db : Db) :
    reportLines s e { db with orders := db.orders.map g } = reportLines s e db := by
  rw [reportLines, reportLines]
  apply filterMap_ext
  intro oi _
  have hcomp : ((fun (o : Order) => o.id == oi.orderId) ∘ g)
      = (fun o => o.id == oi.orderId) := by
    funext o
    simp only [Function.comp_apply, hid o]
  have hfind : (db.orders.map g).find? (fun o => o.id == oi.orderId)
      = (db.orders.find? (fun o => o.id == oi.orderId)).map g := by
    rw [List.find?_map, hcomp]
  cases hord : db.orders.find? (fun o => o.id == oi.orderId) with
  | none =>
    cases hprod : db.products.find? (fun p => p.id == oi.productId) <;>
      simp [hfind, hord, hprod]
  | some o =>
    cases hprod : db.products.find? (fun p => p.id == oi.productId) <;>
      simp [hfind, hord, hprod, hct o]

/-- C10: the sales report joins order lines to orders filtering only on
the order's creation date — never on its status — so Pending, Paid,
Cancelled and any admin-set status contribute equally: overwriting any
order's status (admin PATCH) or paying any order leaves every reported
totalSold and revenue unchanged, so unpaid and cancelled orders are
included. -/
theorem salesReport_status_blind (s e oid : Nat) (st : String) (customerId : Nat)
    (pm : String) (db : Db) :
    salesReport s e (adminSetStatus oid st db) = salesReport s e db
    ∧ salesReport s e (payDb (pay customerId oid pm db)) = salesReport s e db := by
  constructor
  · unfold salesReport adminSetStatus
    exact congrArg salesRowsOf (reportLines_orders_map
      (fun o => if o.id == oid then { o with status := st } else o)
      (fun o => by
        show (if (o.id == oid) = true then ({ o with status := st } : Order)
              else o).id = o.id
        split <;> rfl)
      (fun o => by
        show (if (o.id == oid) = true then ({ o with status := st } : Order)
              else o).createdAt = o.createdAt
        split <;> rfl) s e db)
  · cases hfind : db.orders.find?
        (fun o => o.id == oid && o.customerId == customerId) with
    | none =>
      have hpd : payDb (pay customerId oid pm db) = db := by
        simp [pay, hfind, payDb]
      rw [hpd]
    | some o0 =>
      have hpd : payDb (pay customerId oid pm db)
          = { db with orders := db.orders.map (fun o =>
              if o.id == oid then { o with status := "Paid", paymentMethod := some pm } else o) } := by
        simp [pay, hfind, payDb]
      rw [hpd]
      unfold salesReport
      exact congrArg salesRowsOf (reportLines_orders_map
        (fun o => if o.id == oid then { o with status := "Paid", paymentMethod := some pm } else o)
        (fun o => by
          show (if (o.id == oid) = true then
                  ({ o with status := "Paid", paymentMethod := some pm } : Order)
                else o).id = o.id
          split <;> rfl)
        (fun o => by
          show (if (o.id == oid) = true then
                  ({ o with status := "Paid", paymentMethod := some pm } : Order)
                else o).createdAt = o.createdAt
          split <;> rfl) s e db)

end Shop
